import Mathlib

/-!
Verification of the sales-ranking pipeline of this repository
(`ranking_vendas.py`, `relatorio_analitico_vendas.py`, `ranking_chart_kgs.py`).

The Python sources are shallowly embedded here: monetary amounts become `ℚ`,
pandas missing values (`NaN`) become `Option`, strings become `List Char`
(single-character `str.replace`, `re.sub` character filtering and `str.split`
all act character-wise), and the scripts' control flow becomes plain
functions.  Each definition carries a reference to the source lines it
translates.
-/

namespace RankingVendas

/-! ## Currency parser

Embedding of `clean_currency` (`ranking_vendas.py` lines 39-90; the identical
function appears at the same lines of `relatorio_analitico_vendas.py`). -/

/-- Whitespace characters removed by Python `str.strip()` (the inputs are
ASCII, so these six are the relevant ones). -/
def isPyWs (c : Char) : Bool :=
  c = ' ' || c = '\t' || c = '\n' || c = '\x0d' || c = '\x0b' || c = '\x0c'

/-- `value.replace('R$', '')` (line 54): remove every non-overlapping
occurrence of the two-character pattern `R$`, scanning left to right. -/
def removeRS : List Char → List Char
  | 'R' :: '$' :: rest => removeRS rest
  | c :: rest => c :: removeRS rest
  | [] => []

/-- `str.strip()` (line 54): drop leading and trailing whitespace. -/
def pyStrip (l : List Char) : List Char :=
  ((l.dropWhile isPyWs).reverse.dropWhile isPyWs).reverse

/-- Characters kept by `re.sub(r'[^\d,-.]', '', value)` (line 63): digits,
comma, minus and dot (the class `,-.` is the range from `,` to `.`). -/
def keepNumChar (c : Char) : Bool :=
  c.isDigit || c = ',' || c = '-' || c = '.'

/-- `replace(',', '.')` on a single character. -/
def commaToDot (c : Char) : Char := if c = ',' then '.' else c

/-- Decimal-separator disambiguation, `clean_currency` lines 72-82:
if both comma and dot are present, drop the dots and turn commas into dots;
if only commas are present, split on the commas and check whether the last
part has exactly two characters — in the two-digit case dots are dropped
(a no-op here) and commas become dots, otherwise commas become dots. -/
def sepResolve (l : List Char) : List Char :=
  if l.contains ',' && l.contains '.' then
    (l.filter (fun c => c ≠ '.')).map commaToDot
  else if l.contains ',' then
    let parts := l.splitOn ','
    if parts.length > 1 && (parts.getLastD []).length = 2 then
      (l.filter (fun c => c ≠ '.')).map commaToDot
    else
      l.map commaToDot
  else l

/-- Value of a block of ASCII digits, most significant first. -/
def digitsToNat (l : List Char) : Nat :=
  l.foldl (fun a c => 10 * a + (c.toNat - 48)) 0

/-- Splits an unsigned decimal string into integer and fractional digit
blocks, or fails.  Python `float(s)` accepts the string when it consists of
digits and at most one dot and contains at least one digit (`float("5.")`,
`float(".5")` succeed; `float("")`, `float(".")`, `float("1.2.3")` raise
`ValueError`).  The cleaned strings reaching `float` in `clean_currency`
contain only digits, dots and a possible leading minus, so no other
`float` syntax (exponents, `inf`, underscores) is reachable. -/
def floatSplit (l : List Char) : Option (List Char × List Char) :=
  if (l.all fun c => c.isDigit || c = '.') && l.count '.' ≤ 1 && l.any Char.isDigit then
    some (l.takeWhile (fun c => c ≠ '.'), (l.dropWhile (fun c => c ≠ '.')).drop 1)
  else none

/-- Sign and digit blocks of the string passed to `float` (line 85): an
optional leading minus followed by an unsigned decimal number. -/
def pyFloatParts (l : List Char) : Option (Bool × List Char × List Char) :=
  if l.head? = some '-' then (floatSplit (l.drop 1)).map (fun p => (true, p.1, p.2))
  else (floatSplit l).map (fun p => (false, p.1, p.2))

/-- The rational value denoted by integer digits `ip` and fractional
digits `fp`. -/
def decimalVal (ip fp : List Char) : ℚ :=
  (digitsToNat ip : ℚ) + (digitsToNat fp : ℚ) / 10 ^ fp.length

/-- Python `float(s)` on the cleaned string (line 85), as an exact
rational. -/
def pyFloat (l : List Char) : Option ℚ :=
  (pyFloatParts l).map fun p => if p.1 then -(decimalVal p.2.1 p.2.2) else decimalVal p.2.1 p.2.2

/-- An input cell as `clean_currency` receives it: pandas missing value,
a number, or a string. -/
inductive PdVal where
  | na : PdVal
  | num : ℚ → PdVal
  | str : String → PdVal

/-- Result of `clean_currency`: the missing value passed through unchanged
(line 45-46), the `None` produced on a parse failure (line 89), or a number. -/
inductive CleanRes where
  | na : CleanRes
  | failed : CleanRes
  | num : ℚ → CleanRes
deriving DecidableEq

/-- Lines 57-60 applied to the stripped string
`v = value.replace('R$', '').strip()` of line 54:
`negative = value.startswith('-') or '(' in value or ')' in value or
value.startswith('(') and value.endswith(')')` (in Python the trailing
`A and B` binds tighter than the `or` chain). -/
def isNegative (l : List Char) : Bool :=
  let v := pyStrip (removeRS l)
  decide (v.head? = some '-') || v.contains '(' || v.contains ')' ||
    (decide (v.head? = some '(') && decide (v.getLast? = some ')'))

/-- The character cleanup of `clean_currency` lines 54-82, from the raw
string to the string handed to `float`. -/
def cleanedForm (l : List Char) : List Char :=
  -- line 54: value = value.replace('R$', '').strip()
  let v := pyStrip (removeRS l)
  -- line 63: cleaned = re.sub(r'[^\d,-.]', '', value)
  let cleaned := v.filter keepNumChar
  -- line 66: cleaned = cleaned.replace('(', '').replace(')', '')  (a no-op
  -- after the regex already removed every parenthesis)
  let cleaned := (cleaned.filter (fun c => c ≠ '(')).filter (fun c => c ≠ ')')
  -- lines 69-70: if '-' in cleaned[1:]: cleaned = cleaned.replace('-', '')
  let cleaned := if (cleaned.drop 1).contains '-' then
      cleaned.filter (fun c => c ≠ '-')
    else cleaned
  -- lines 72-82
  sepResolve cleaned

/-- The string branch of `clean_currency` (lines 51-89).  Returns the result
together with a flag recording whether the `ValueError` diagnostic
(`print(f"Valor não convertido: ...")`, line 88) was emitted.
Lines 84-89: `num = float(cleaned); return -abs(num) if negative else
abs(num)`, and on `ValueError` print the diagnostic and return `None`. -/
def cleanCurrencyChars (l : List Char) : CleanRes × Bool :=
  match pyFloat (cleanedForm l) with
  | some num => (.num (if isNegative l then -|num| else |num|), false)
  | none => (.failed, true)

/-- `clean_currency` (`ranking_vendas.py` lines 39-90): missing values pass
through, numbers are returned as floats unchanged, strings are cleaned and
parsed.  The boolean records whether the parse-failure diagnostic was
printed. -/
def clean_currency : PdVal → CleanRes × Bool
  | .na => (.na, false)
  | .num q => (.num q, false)
  | .str s => cleanCurrencyChars s.toList

/-- The negativity test exactly as claim C10 words it: after removing `R$`
and trimming, the string starts with `-` or contains `(` or `)` anywhere.
(Stated separately from `isNegative`, which is the source's four-disjunct
test; the two are proved equal.) -/
def claimNegTest (l : List Char) : Bool :=
  let v := pyStrip (removeRS l)
  decide (v.head? = some '-') || v.contains '(' || v.contains ')'

/-! ## Margin aggregation

The three margin computations of the sources, over the rows sharing one
aggregation key.  Monetary cells that survived `clean_currency` filtering
are plain rationals here. -/

/-- A transaction row's monetary columns after cleaning: `Lucro / Prej.`
and `Fat Liquido`. -/
structure FinRow where
  lucro : ℚ
  fat : ℚ

/-- Margin of a collection of rows in `ranking_vendas.generate_report`:
`np.where(fat_sum <= 0, 0, lucro_sum / fat_sum * 100)`.  The same formula is
applied per identity (lines 305-308), for the overall total (lines 330-332)
and per (identity, week) (lines 358-361). -/
def margemRatioSums (rows : List FinRow) : ℚ :=
  let fatSum := (rows.map FinRow.fat).sum
  let lucroSum := (rows.map FinRow.lucro).sum
  if fatSum ≤ 0 then 0 else lucroSum / fatSum * 100

/-- NumPy `.round(2)`: round to two decimals, ties to even. -/
def npRound2 (q : ℚ) : ℚ :=
  let s := q * 100
  let n : ℤ := ⌊s⌋
  let r := s - (n : ℚ)
  if r < 1 / 2 then (n : ℚ) / 100
  else if 1 / 2 < r then ((n + 1 : ℤ) : ℚ) / 100
  else if 2 ∣ n then (n : ℚ) / 100
  else ((n + 1 : ℤ) : ℚ) / 100

/-- `MARGEM_PERC` of `ranking_vendas.generate_consolidated_excel`
(lines 997-1000 for groups, identically lines 1018-1021 for individual
products): `np.where(FATURAMENTO_RS == 0, 0, LUCRO_RS / FATURAMENTO_RS *
100).round(2)` — note the guard is `== 0`, not `<= 0`. -/
def margemPerc (rows : List FinRow) : ℚ :=
  let fatSum := (rows.map FinRow.fat).sum
  let lucroSum := (rows.map FinRow.lucro).sum
  npRound2 (if fatSum = 0 then 0 else lucroSum / fatSum * 100)

/-- Per-product margin of `relatorio_analitico_vendas.generate_report`
(lines 171-173): `grouped = df.groupby('CODPRODUTO')['Margem'].sum()` then
`grouped['Margem'] * 100` — the row-level `Margem` column values of one
product are summed and scaled, no profit/revenue ratio is recomputed.  The
overall total (line 147) is the same sum-times-100 over all rows. -/
def margemRelatorio (margens : List ℚ) : ℚ :=
  margens.sum * 100

/-! ## Tonnage row filtering -/

/-- A transaction row as the Tonnage pipelines see it: `QTDE REAL` may be
missing (`NaN`). -/
structure TonRow where
  codproduto : Nat
  descricao : String
  qtdeReal : Option ℚ
deriving DecidableEq

/-- `ranking_vendas.generate_report` line 241 for the Tonnage metric:
`df = df[df['QTDE REAL'].notna()]` — only missing values are dropped. -/
def filterTonelagem (rows : List TonRow) : List TonRow :=
  rows.filter fun r => r.qtdeReal.isSome

/-- `ranking_chart_kgs.py` line 44: `df = df[df['QTDE REAL'] >= 0]` — a
pandas comparison is `False` on `NaN`, so this keeps exactly the rows with a
present, non-negative value. -/
def filterKgs (rows : List TonRow) : List TonRow :=
  rows.filter fun r =>
    match r.qtdeReal with
    | some q => decide (0 ≤ q)
    | none => false

/-! ## Product-group registry and row classifier -/

/-- The inverse `code_to_group` construction of
`ranking_vendas.generate_report` lines 193-197 (and identically
`generate_consolidated_excel` lines 947-951):

    for group_name, codes in product_groups.items():
        for code in codes:
            code_to_group[code] = group_name

Python dictionaries iterate in insertion order, and each assignment
overwrites any earlier one, so a later group silently wins for a shared
code. -/
def buildInv (groups : List (String × List Nat)) : Nat → Option String :=
  groups.foldl
    (fun acc p => p.2.foldl (fun acc2 code => fun c => if c = code then some p.1 else acc2 c) acc)
    (fun _ => none)

/-- The static `product_groups` table of `ranking_vendas.generate_report`
(lines 112-191), in source (insertion) order.  The member lists are kept
verbatim, including the repeats inside MOCOTÓ. -/
def productGroups : List (String × List Nat) := [
  ("ACEM", [1924, 8006, 1940, 1878, 8101, 1841]),
  ("ALCATRA C/ MAMINHA", [8001, 1836, 1965, 1800]),
  ("BARRIGA", [1833, 1639, 1544, 1674, 1863, 1845, 1385, 1898, 1913, 1513, 1444, 1434, 1960, 1954, 5200]),
  ("BUCHO", [1567, 1816, 1856, 1480, 1527, 1903, 1855, 1958]),
  ("BACON MANTA", [869, 981]),
  ("BANHA SUINA", [1605, 1139]),
  ("BATATA", [1767, 1872]),
  ("BOLACHA", [1649, 1644, 1643, 1647, 1645, 1648]),
  ("BOLINHO", [1709, 1707, 1708, 1941, 1999]),
  ("CARNE SALGADA", [1428, 845, 809, 1452]),
  ("CARNE TEMPERADA", [1720, 1623, 1618]),
  ("CARRE", [1568, 1355, 1443, 1817, 1464, 1640, 1533, 1286, 1518, 1653, 1216, 1316, 906, 1210, 1908, 1221, 1177, 1612, 1634, 917, 1689, 1511, 1955]),
  ("CONTRA FILÉ", [1901, 1922, 1840, 1947, 1894, 1899, 1905, 1503, 1824]),
  ("CORAÇÃO DE ALCATRA", [1830, 1939]),
  ("COSTELA BOV", [1768, 1825, 1931, 1814, 1890]),
  ("COSTELA MINGA", [1973, 1982]),
  ("COSTELA SUINA CONGELADA", [1478, 1595, 1506, 1081, 1592, 1412, 1641, 1888, 1522, 1638, 1607, 1517, 1461, 1416, 1760, 1877, 1664, 1053, 1314, 1617, 1599, 1896, 1857, 1179, 1324, 1529, 1421, 1323, 1879, 1052, 1051, 1354, 905, 1384, 1086, 1174, 1150, 1758, 1320, 1829, 1665, 1327, 1442, 1431, 1704, 1736, 1445, 1321, 1884, 1535, 8007]),
  ("COSTELA SALGADA", [1446, 755, 848, 1433, 1095]),
  ("COXA C/ SOBRECOXA", [1519, 1956]),
  ("COXÃO DURO", [1920, 8003, 1803, 1949, 1795]),
  ("COXÃO MOLE", [1831, 8002, 1948, 1976, 1375]),
  ("COXINHA DA ASA", [1604, 1546, 8005]),
  ("CUPIM A", [1772]),
  ("CUPIM B", [1804, 1456, 1926, 1984]),
  ("FIGADO", [1808, 1455, 1818, 1910, 1823, 1537, 1505, 1408, 1373, 1458, 1508, 1525, 1454, 1801, 1528, 1530, 1502, 1945, 1967, 1998, 1978, 1983, 2018]),
  ("FILÉ DE PEITO DE FRANGO", [1632, 1386, 1935]),
  ("FILÉ MIGNON", [1812, 1919]),
  ("FRALDA", [1797, 1925]),
  ("HAMBURGUER", [1009, 1866, 1010]),
  ("HOT POCKET", [1987]),
  ("JERKED", [1893, 1943, 1880, 1886, 1851]),
  ("LAGARTO", [1849, 1396, 1895, 1813]),
  ("LASANHA", [1003, 1691, 1997, 1002, 1991]),
  ("LINGUIÇA CALABRESA AURORA", [788, 1974]),
  ("LINGUIÇA CALABRESA SADIA", [1339, 807, 1848, 1847]),
  ("LINGUIÇA CALABRESA PAMPLONA", [9165, 910]),
  ("LÍNGUA SALGADA", [817, 849, 1430]),
  ("LOMBO SALGADO", [846, 878, 1432, 1451]),
  ("MASC. ORELHA SALGADA", [1426, 1447, 850, 746]),
  ("MARGARINA DORIANA COM SAL", [1161, 1981]),
  ("MARGARINA QUALLY COM SAL", [826, 811]),
  ("MEIO DA ASA", [2311, 1937]),
  ("MINI CHICKEN", [1024, 1994]),
  ("MINI LASANHA", [1992, 1985]),
  ("MOCOTÓ", [1539, 1460, 1342, 1540, 1675, 1850, 1827, 1821, 1853, 1407, 1723, 1585, 1407, 1723, 1585, 1843, 1584, 762, 1534, 1883, 1509, 1601, 1962]),
  ("MUSSARELA", [2000, 947, 1807, 1914]),
  ("NUGGETS", [1007, 1995]),
  ("PATINHO", [1805, 1874, 8000, 1938, 9166, 1966]),
  ("PALETA", [1953, 1964, 1923, 1975]),
  ("PÉ SALGADO", [1427, 836, 852, 1450]),
  ("PEITO BOV", [1815, 1875, 1789, 1952]),
  ("PERNIL SUINO C/OSSO C/PELE", [1942, 1635, 1724, 1570, 1756]),
  ("PICANHA B", [1946, 1950]),
  ("PIZZA", [1989, 1990]),
  ("PONTA SALGADA", [1425, 750]),
  ("PURURUCA 60G", [1288, 1289, 1287]),
  ("PURURUCA 1KG", [1265, 812]),
  ("RABO BOV", [1828, 1839, 1876, 1861, 1116, 1705, 1531, 1906, 1826, 1911, 1882, 1571, 1335, 1963, 1909, 1473]),
  ("RABO SUINO SALGADA", [851, 1429, 748, 1449]),
  ("SALAME UAI", [1495, 1500, 1496, 1497, 1498, 1499]),
  ("SALSICHA", [759, 1189, 816, 1162]),
  ("STEAK FGO", [1718, 1996]),
  ("TAPIOCA DA TERRINHA", [1929, 1930]),
  ("YOPRO", [1698, 1701, 1587, 1700, 86754, 1586, 9675])]

/-- A transaction row as the classifier sees it. -/
structure TRow where
  codproduto : Nat
  descricao : String

/-- `ID_AGRUPADO` (`ranking_vendas.generate_report` lines 258-261): the
group name when `GRUPO` is present, else `str(row['CODPRODUTO'])`. -/
def idAgrupado (lookup : Nat → Option String) (r : TRow) : String :=
  match lookup r.codproduto with
  | some g => g
  | none => toString r.codproduto

/-- `DESCRICAO_AGRUPADA` (`ranking_vendas.generate_report` lines 264-267):
the group name when `GRUPO` is present, else the row's own description. -/
def descricaoAgrupada (lookup : Nat → Option String) (r : TRow) : String :=
  match lookup r.codproduto with
  | some g => g
  | none => r.descricao

/-! ## Pagination

`ranking_vendas.generate_report` lines 382-384 (and `ranking_chart_kgs.py`
lines 60-64):

    for i in range(0, len(sorted_df), items_per_page):
        chunk = sorted_df.iloc[i:i+items_per_page]

The pages are the slices `[0, P)`, `[P, 2P)`, ... of the ranked sequence.
`range` demands a nonzero step, so the `p = 0` equation below is never
reached by the source; it makes the recursion total. -/
def paginate (p : Nat) (l : List α) : List (List α) :=
  match l, p with
  | [], _ => []
  | _ :: _, 0 => []
  | x :: xs, q + 1 => (x :: xs).take (q + 1) :: paginate (q + 1) (xs.drop q)
termination_by l.length
decreasing_by
  simp only [List.length_drop, List.length_cons]
  omega

/-! ## General-report column check and script-level control flow

`ranking_vendas.generate_general_report` lines 611-854 and the module body
lines 1114-1137. -/

/-- `required_columns` of `ranking_vendas.generate_general_report`
(line 618). -/
def requiredColumnsGeneral : List String :=
  ["RAZAO", "VENDEDOR", "CODPRODUTO", "DATA", "QTDE REAL", "Fat Liquido", "Lucro / Prej."]

/-- Line 619: `[col for col in required_columns if col not in df.columns]`
— the missing columns, in `required_columns` order. -/
def missingColumns (cols : List String) : List String :=
  requiredColumnsGeneral.filter fun c => ¬ cols.contains c

/-- A Python exception as the embedded control flow distinguishes them. -/
inductive PyErr where
  | valueError : List String → PyErr
  | unboundLocal : String → PyErr
deriving DecidableEq

/-- The `except` handler of `generate_general_report` (lines 848-854): it
prints the message and then evaluates `os.path.exists(output_path)`.
`output_path` is a local variable of the function (assigned at line 635),
so when the handled exception was raised before that assignment the read
raises `UnboundLocalError`, which escapes the handler. -/
def generalExceptHandler (outputPathAssigned : Bool) (_e : PyErr) : Except PyErr Unit :=
  if outputPathAssigned then .ok () else .error (.unboundLocal "output_path")

/-- `generate_general_report` restricted to the column-check path
(lines 617-622 inside the `try`, lines 848-854 the handler): when columns
are missing, `ValueError` with the enumerated names is raised at line 622 —
before `output_path` is assigned at line 635 — caught, and the handler
itself raises `UnboundLocalError`.  Otherwise the check passes and the
report is produced. -/
def generate_general_report (cols : List String) : Except PyErr Unit :=
  let missing := missingColumns cols
  if missing.isEmpty then .ok ()
  else generalExceptHandler false (.valueError missing)

/-- The module body of `ranking_vendas.py` (lines 1114-1137):
`generate_general_report` first, then `generate_consolidated_excel`, then
the three metric reports, sequentially and with no surrounding `try` — an
exception escaping the first call terminates the script and the remaining
reports are never generated.  Returns the names of the reports that get
generated. -/
def scriptReportsRun (cols : List String) : List String :=
  match generate_general_report cols with
  | .error _ => []
  | .ok () => ["Consolidado", "Tonelagem", "Faturamento", "Margem"]

/-! ## Currency-parser lemmas -/

/-- Successful parses: the result of the string branch from the sign test
and the parsed magnitude. -/
lemma cleanCurrencyChars_num (l : List Char) (m : ℚ)
    (h1 : pyFloat (cleanedForm l) = some m) :
    cleanCurrencyChars l = (.num (if isNegative l then -|m| else |m|), false) := by
  simp [cleanCurrencyChars, h1]

/-- Evaluation helper: a concrete string's parse from its character-level
cleanup facts. -/
lemma clean_currency_str_eval (s : String) (sgn neg : Bool) (ip fp : List Char) (q : ℚ)
    (hparts : pyFloatParts (cleanedForm s.toList) = some (sgn, ip, fp))
    (hneg : isNegative s.toList = neg)
    (hq : (if neg then -|if sgn then -(decimalVal ip fp) else decimalVal ip fp|
           else |if sgn then -(decimalVal ip fp) else decimalVal ip fp|) = q) :
    clean_currency (.str s) = (.num q, false) := by
  have hm : pyFloat (cleanedForm s.toList)
      = some (if sgn then -(decimalVal ip fp) else decimalVal ip fp) := by
    rw [pyFloat, hparts]; rfl
  show cleanCurrencyChars s.toList = _
  rw [cleanCurrencyChars_num _ _ hm, hneg, hq]

/-- **C2.** The currency parser satisfies the specified input/output pairs:
`R$ 1.234,56 ↦ 1234.56`, `(1.234,56) ↦ -1234.56`, `-R$ 50,00 ↦ -50`,
numeric input `1234.5` is returned unchanged, a missing value is returned
unchanged, and `"abc"` yields the missing marker with the diagnostic flag
set instead of raising. -/
theorem claim_c2_currency_parser_pairs :
    clean_currency (.str "R$ 1.234,56") = (.num 1234.56, false) ∧
    clean_currency (.str "(1.234,56)") = (.num (-1234.56), false) ∧
    clean_currency (.str "-R$ 50,00") = (.num (-50), false) ∧
    clean_currency (.num 1234.5) = (.num 1234.5, false) ∧
    clean_currency .na = (.na, false) ∧
    clean_currency (.str "abc") = (.failed, true) := by
  refine ⟨?_, ?_, ?_, rfl, rfl, by decide⟩
  · refine clean_currency_str_eval _ false false ['1', '2', '3', '4'] ['5', '6'] _
      (by decide) (by decide) ?_
    norm_num [decimalVal, show digitsToNat ['1', '2', '3', '4'] = 1234 from by decide,
      show digitsToNat ['5', '6'] = 56 from by decide, abs_of_pos]
  · refine clean_currency_str_eval _ false true ['1', '2', '3', '4'] ['5', '6'] _
      (by decide) (by decide) ?_
    norm_num [decimalVal, show digitsToNat ['1', '2', '3', '4'] = 1234 from by decide,
      show digitsToNat ['5', '6'] = 56 from by decide, abs_of_pos]
  · refine clean_currency_str_eval _ true true ['5', '0'] ['0', '0'] _
      (by decide) (by decide) ?_
    norm_num [decimalVal, show digitsToNat ['5', '0'] = 50 from by decide,
      show digitsToNat ['0', '0'] = 0 from by decide, abs_of_pos]

/-- Filtering away a character that does not occur changes nothing. -/
lemma filter_ne_of_not_contains (l : List Char) (c : Char) (h : l.contains c = false) :
    (l.filter fun x => x ≠ c) = l := by
  induction l with
  | nil => rfl
  | cons a t ih =>
    rw [List.contains_cons, Bool.or_eq_false_iff] at h
    have ha : a ≠ c := by
      intro e
      rw [e, beq_self_eq_true] at h
      exact Bool.true_eq_false.mp h.1
    have hpa : (decide (a ≠ c)) = true := by simp [ha]
    simp only [List.filter_cons, hpa, if_true]
    rw [ih h.2]

/-- **C3, counterexample.**  The claim predicts that in a comma-only string
with other than two digits after the last comma the comma acts as a
thousands separator, so that `"1,234"` parses to `1234`; the code instead
turns the comma into a decimal dot and parses `1.234`. -/
theorem claim_c3_counterexample :
    clean_currency (.str "1,234") = (.num 1.234, false) ∧ (1.234 : ℚ) ≠ 1234 := by
  constructor
  · refine clean_currency_str_eval _ false false ['1'] ['2', '3', '4'] _
      (by decide) (by decide) ?_
    norm_num [decimalVal, show digitsToNat ['1'] = 1 from by decide,
      show digitsToNat ['2', '3', '4'] = 234 from by decide, abs_of_pos]
  · norm_num

/-- **C3, as amended.**  When the cleaned form contains both a comma and a
dot, the dots are removed (thousands separators) and the commas become the
decimal mark; when it contains commas but no dot, every comma becomes the
decimal mark regardless of how many digits follow the last comma (the
two-digit test only adds a dot-removal that is vacuous there), so
`"1,234"` parses to `1.234`, not `1234`. -/
theorem claim_c3_separator_disambiguation (l : List Char) :
    (l.contains ',' = true → l.contains '.' = true →
      sepResolve l = (l.filter fun c => c ≠ '.').map commaToDot) ∧
    (l.contains ',' = true → l.contains '.' = false →
      sepResolve l = l.map commaToDot) := by
  constructor
  · intro h1 h2
    rw [sepResolve, h1, h2]
    rfl
  · intro h1 h2
    rw [sepResolve, h1, h2, filter_ne_of_not_contains l '.' h2]
    simp

theorem claim_c3_witness : sepResolve ("1,234".toList) = "1.234".toList :=
  ((claim_c3_separator_disambiguation ("1,234".toList)).2 (by decide) (by decide)).trans
    (by decide)

/-- The source's four-disjunct negativity test equals the three-disjunct
test of claim C10: the fourth disjunct `startswith('(') and endswith(')')`
is subsumed by `'(' in value`. -/
lemma isNegative_eq_claimNegTest (l : List Char) : isNegative l = claimNegTest l := by
  rw [isNegative, claimNegTest]
  cases hv : pyStrip (removeRS l) with
  | nil => rfl
  | cons c cs =>
    by_cases hc : c = '('
    · subst hc
      simp [List.contains_cons]
    · have h4 : decide ((c :: cs).head? = some '(') = false := by simp [hc]
      rw [h4]
      simp

/-- **C10.** For every string the parser converts successfully, the sign of
the result is decided solely by the pre-cleanup negativity test — the value
is nonpositive when the trimmed, `R$`-stripped string starts with `-` or
contains a parenthesis anywhere (even unmatched), and nonnegative
otherwise; minus signs discarded during digit cleanup never affect it. -/
theorem claim_c10_sign_from_negativity_test (l : List Char) (q : ℚ) (d : Bool)
    (h : cleanCurrencyChars l = (.num q, d)) :
    (claimNegTest l = true → q ≤ 0) ∧ (claimNegTest l = false → 0 ≤ q) := by
  rcases hf : pyFloat (cleanedForm l) with _ | m
  · rw [cleanCurrencyChars, hf] at h
    exact absurd h (by simp)
  · rw [cleanCurrencyChars, hf] at h
    rw [Prod.mk.injEq, CleanRes.num.injEq] at h
    obtain ⟨hq, -⟩ := h
    rw [isNegative_eq_claimNegTest] at hq
    constructor
    · intro ht
      rw [ht, if_pos rfl] at hq
      rw [← hq]
      exact neg_nonpos.mpr (abs_nonneg m)
    · intro hfe
      rw [hfe] at hq
      simp only [Bool.false_eq_true, if_false] at hq
      rw [← hq]
      exact abs_nonneg m

theorem claim_c10_witness : claimNegTest ("(50".toList) = true ∧ (-50 : ℚ) ≤ 0 := by
  have h : cleanCurrencyChars ("(50".toList) = (.num (-50), false) :=
    clean_currency_str_eval "(50" false true ['5', '0'] [] (-50) (by decide) (by decide)
      (by norm_num [decimalVal, show digitsToNat ['5', '0'] = 50 from by decide,
        show digitsToNat ([] : List Char) = 0 from rfl])
  exact ⟨by decide, (claim_c10_sign_from_negativity_test _ _ _ h).1 (by decide)⟩

/-! ## Margin (C1) -/

/-- **C1, evaluation at the failing inputs.**  Two rows of one product with
profit 10 on revenue 100 and profit 20 on revenue 100: the ratio-of-sums
margin of `ranking_vendas.generate_report` is 15, but
`relatorio_analitico_vendas.generate_report` sums the row-level margins
(0.10 and 0.20) and reports 30.  And a key whose rows sum to profit 10 on
revenue -100: the claim requires margin 0 for nonpositive summed revenue,
but `generate_consolidated_excel`'s `MARGEM_PERC` guards only `== 0` and
reports -10. -/
theorem claim_c1_margin_eval :
    margemRatioSums [⟨10, 100⟩, ⟨20, 100⟩] = 15 ∧
    margemRelatorio [10 / 100, 20 / 100] = 30 ∧ (30 : ℚ) ≠ 15 ∧
    margemPerc [⟨10, -100⟩] = -10 ∧ ((-10 : ℚ) ≠ 0) := by
  refine ⟨?_, ?_, by norm_num, ?_, by norm_num⟩
  · norm_num [margemRatioSums]
  · norm_num [margemRelatorio]
  · norm_num [margemPerc, npRound2]

/-! ## Negative-Tonnage filtering (C7) -/

/-- **C7, counterexample.**  A row whose `QTDE REAL` is present and
negative — not missing, not unparseable — is nonetheless excluded by the
pre-aggregation filter of `ranking_chart_kgs.py` (`df['QTDE REAL'] >= 0`),
while `ranking_vendas.generate_report` retains it. -/
theorem claim_c7_counterexample :
    filterKgs [⟨1924, "ACEM BOV KG", some (-5)⟩] = [] ∧
    (⟨1924, "ACEM BOV KG", some (-5)⟩ : TonRow).qtdeReal ≠ none ∧
    filterTonelagem [⟨1924, "ACEM BOV KG", some (-5)⟩] =
      [⟨1924, "ACEM BOV KG", some (-5)⟩] := by
  refine ⟨?_, by simp, ?_⟩ <;> decide

/-- **C7, as amended.**  A row with a present Tonnage value is always
retained by `ranking_vendas.generate_report`'s filter (only missing values
are dropped, so negative rows survive into aggregation and ranking there),
but `ranking_chart_kgs.py` additionally drops every row with a negative
value before aggregating. -/
theorem claim_c7_negative_tonnage_retention (rows : List TonRow) (r : TonRow) (q : ℚ)
    (hmem : r ∈ rows) (hq : r.qtdeReal = some q) :
    r ∈ filterTonelagem rows ∧ (q < 0 → r ∉ filterKgs rows) ∧
      (0 ≤ q → r ∈ filterKgs rows) := by
  refine ⟨?_, ?_, ?_⟩
  · rw [filterTonelagem, List.mem_filter]
    exact ⟨hmem, by rw [hq]; rfl⟩
  · intro hneg hin
    rw [filterKgs, List.mem_filter] at hin
    obtain ⟨-, hp⟩ := hin
    rw [hq] at hp
    exact absurd (of_decide_eq_true hp) (not_le.mpr hneg)
  · intro hpos
    rw [filterKgs, List.mem_filter]
    refine ⟨hmem, ?_⟩
    rw [hq]
    exact decide_eq_true hpos

theorem claim_c7_witness :
    (⟨1924, "ACEM BOV KG", some (-5)⟩ : TonRow) ∈
      filterTonelagem [⟨1924, "ACEM BOV KG", some (-5)⟩] ∧
    (⟨1924, "ACEM BOV KG", some (-5)⟩ : TonRow) ∉
      filterKgs [⟨1924, "ACEM BOV KG", some (-5)⟩] := by
  have h := claim_c7_negative_tonnage_retention [⟨1924, "ACEM BOV KG", some (-5)⟩]
    ⟨1924, "ACEM BOV KG", some (-5)⟩ (-5) (by simp) rfl
  exact ⟨h.1, h.2.1 (by norm_num)⟩

/-! ## Registry lemmas (C9, C4) -/

/-- The inner loop `for code in codes: code_to_group[code] = group_name`:
after it, a code maps to this group exactly when it occurs in `codes`,
otherwise the earlier state is untouched. -/
lemma buildInv_inner (g : String) (codes : List Nat) (acc : Nat → Option String) (c : Nat) :
    (codes.foldl (fun a code => fun x => if x = code then some g else a x) acc) c
      = if codes.contains c then some g else acc c := by
  induction codes generalizing acc with
  | nil => simp [List.foldl_nil]
  | cons cd rest ih =>
    rw [List.foldl_cons, ih, List.contains_cons]
    by_cases hc : c = cd
    · subst hc
      simp
    · have hb : (c == cd) = false := beq_eq_false_iff_ne.mpr hc
      simp [hb, hc]

/-- The outer loop over the group table: a code resolves to the last group
(in iteration order) whose member list contains it, else the initial
state. -/
lemma buildInv_foldl (groups : List (String × List Nat)) (acc : Nat → Option String) (c : Nat) :
    (groups.foldl
        (fun a p => p.2.foldl (fun a2 code => fun x => if x = code then some p.1 else a2 x) a)
        acc) c
      = match (groups.filter fun p => p.2.contains c).getLast? with
        | some p => some p.1
        | none => acc c := by
  induction groups using List.reverseRecOn with
  | nil => rfl
  | append_singleton gs p ih =>
    rw [List.foldl_append, List.foldl_cons, List.foldl_nil, buildInv_inner, ih,
      List.filter_append, List.filter_singleton]
    by_cases hp : p.2.contains c = true
    · rw [hp, show (bif true then [p] else ([] : List (String × List Nat))) = [p] from rfl,
        List.getLast?_concat]
      rfl
    · rw [Bool.not_eq_true] at hp
      rw [hp, if_neg (by simp),
        show (bif false then [p] else ([] : List (String × List Nat))) = [] from rfl,
        List.append_nil]

/-- The `code_to_group` dictionary maps a code to the last group in table
order whose member list contains it. -/
lemma buildInv_eq (groups : List (String × List Nat)) (c : Nat) :
    buildInv groups c = ((groups.filter fun p => p.2.contains c).getLast?).map Prod.fst := by
  rw [buildInv, buildInv_foldl]
  cases (groups.filter fun p => p.2.contains c).getLast? <;> rfl

/-- **C9.** The code-to-group inverse lookup resolves every code to the
group whose table entry occurs last in insertion order among those whose
member lists contain the code — later assignments silently overwrite
earlier ones — and in particular to the unique such group when the code
belongs to exactly one. -/
theorem claim_c9_inverse_lookup_last_wins (groups : List (String × List Nat)) (c : Nat) :
    buildInv groups c = ((groups.filter fun p => p.2.contains c).getLast?).map Prod.fst ∧
    (∀ g codes, (groups.filter fun p => p.2.contains c) = [(g, codes)] →
      buildInv groups c = some g) := by
  refine ⟨buildInv_eq groups c, ?_⟩
  intro g codes h
  rw [buildInv_eq, h]
  rfl

theorem claim_c9_witness :
    buildInv productGroups 8006 = some "ACEM" ∧
    buildInv [("A", [7]), ("B", [7])] 7 = some "B" := by
  constructor
  · exact (claim_c9_inverse_lookup_last_wins productGroups 8006).2 "ACEM"
      [1924, 8006, 1940, 1878, 8101, 1841] (by decide)
  · exact ((claim_c9_inverse_lookup_last_wins [("A", [7]), ("B", [7])] 7).1).trans (by decide)

/-- **C4.** The row classifier: when the row's product code belongs to
exactly one registered group, both the aggregation identity `ID_AGRUPADO`
and the display label `DESCRICAO_AGRUPADA` are that group's name; when the
code belongs to no group, the identity is the code rendered as a string and
the label is the row's own description.  Both are pure functions of the row
and the registry. -/
theorem claim_c4_row_classifier (groups : List (String × List Nat)) (r : TRow) (g : String)
    (codes : List Nat) :
    ((groups.filter fun p => p.2.contains r.codproduto) = [(g, codes)] →
      idAgrupado (buildInv groups) r = g ∧ descricaoAgrupada (buildInv groups) r = g) ∧
    ((groups.filter fun p => p.2.contains r.codproduto) = [] →
      idAgrupado (buildInv groups) r = toString r.codproduto ∧
      descricaoAgrupada (buildInv groups) r = r.descricao) := by
  constructor
  · intro h
    have hb : buildInv groups r.codproduto = some g := by
      rw [buildInv_eq, h]
      rfl
    rw [idAgrupado, descricaoAgrupada, hb]
    exact ⟨rfl, rfl⟩
  · intro h
    have hb : buildInv groups r.codproduto = none := by
      rw [buildInv_eq, h]
      rfl
    rw [idAgrupado, descricaoAgrupada, hb]
    exact ⟨rfl, rfl⟩

theorem claim_c4_witness :
    idAgrupado (buildInv productGroups) ⟨1924, "ACEM BOV KG"⟩ = "ACEM" ∧
    descricaoAgrupada (buildInv productGroups) ⟨1924, "ACEM BOV KG"⟩ = "ACEM" ∧
    idAgrupado (buildInv productGroups) ⟨999, "PRODUTO AVULSO"⟩ = "999" ∧
    descricaoAgrupada (buildInv productGroups) ⟨999, "PRODUTO AVULSO"⟩ = "PRODUTO AVULSO" := by
  have h1 := (claim_c4_row_classifier productGroups ⟨1924, "ACEM BOV KG"⟩ "ACEM"
    [1924, 8006, 1940, 1878, 8101, 1841]).1 (by decide)
  have h2 := (claim_c4_row_classifier productGroups ⟨999, "PRODUTO AVULSO"⟩ "" []).2 (by decide)
  exact ⟨h1.1, h1.2, h2.1.trans (by decide), h2.2⟩

/-! ## Required-column check and failure isolation (C8) -/

/-- **C8, counterexample.**  A table with all seven actually-required
columns but no `DESCRICAO` passes the check (the claim counts description
as required for the general report); and a table lacking `RAZAO` makes the
general report fail with the enumerated missing column, after which the
handler's read of the unassigned `output_path` aborts the whole script, so
none of the other reports is generated — the failure is not isolated. -/
theorem claim_c8_counterexample :
    missingColumns ["RAZAO", "VENDEDOR", "CODPRODUTO", "DATA", "QTDE REAL", "Fat Liquido",
      "Lucro / Prej."] = [] ∧
    missingColumns ["VENDEDOR", "CODPRODUTO", "DATA", "QTDE REAL", "Fat Liquido",
      "Lucro / Prej.", "DESCRICAO"] = ["RAZAO"] ∧
    generate_general_report ["VENDEDOR", "CODPRODUTO", "DATA", "QTDE REAL", "Fat Liquido",
      "Lucro / Prej.", "DESCRICAO"] = .error (.unboundLocal "output_path") ∧
    scriptReportsRun ["VENDEDOR", "CODPRODUTO", "DATA", "QTDE REAL", "Fat Liquido",
      "Lucro / Prej.", "DESCRICAO"] = [] := by
  exact ⟨by decide, by decide, rfl, rfl⟩

/-- **C8, as amended.**  The general report's column check enumerates
exactly the required columns absent from the table (customer, salesperson,
product code, date, quantity, net revenue, profit/loss — description is not
checked), in the fixed required-column order; when any is missing the
`ValueError` is raised before `output_path` is assigned, the handler
itself then raises `UnboundLocalError`, and the script dies — no report is
produced, not even the unrelated metric reports.  When none is missing the
check passes and the remaining reports run. -/
theorem claim_c8_missing_column_check (cols : List String) :
    (∀ c, c ∈ missingColumns cols ↔ c ∈ requiredColumnsGeneral ∧ c ∉ cols) ∧
    (missingColumns cols ≠ [] →
      generate_general_report cols = .error (.unboundLocal "output_path") ∧
      scriptReportsRun cols = []) ∧
    (missingColumns cols = [] →
      generate_general_report cols = .ok () ∧
      scriptReportsRun cols = ["Consolidado", "Tonelagem", "Faturamento", "Margem"]) := by
  refine ⟨?_, ?_, ?_⟩
  · intro c
    simp [missingColumns, List.mem_filter, List.elem_iff, List.contains]
  · intro h
    have hne : (missingColumns cols).isEmpty = false := by
      cases hmc : missingColumns cols with
      | nil => exact absurd hmc h
      | cons a t => rfl
    constructor
    · simp [generate_general_report, hne, generalExceptHandler]
    · simp [scriptReportsRun, generate_general_report, hne, generalExceptHandler]
  · intro h
    have he : (missingColumns cols).isEmpty = true := by rw [h]; rfl
    constructor <;> simp [scriptReportsRun, generate_general_report, he]

theorem claim_c8_witness :
    scriptReportsRun ["RAZAO", "VENDEDOR", "CODPRODUTO", "DATA", "QTDE REAL", "Fat Liquido",
      "Lucro / Prej."] = ["Consolidado", "Tonelagem", "Faturamento", "Margem"] :=
  ((claim_c8_missing_column_check _).2.2 (by decide)).2

/-! ## Pagination lemmas (C6) -/

lemma paginate_cons (p : Nat) (hp : 0 < p) (l : List α) (hl : l ≠ []) :
    paginate p l = l.take p :: paginate p (l.drop p) := by
  cases l with
  | nil => exact absurd rfl hl
  | cons x xs =>
    cases p with
    | zero => exact absurd hp (lt_irrefl 0)
    | succ q =>
      simp only [paginate]
      rw [List.drop_succ_cons]

lemma paginate_nil (p : Nat) : paginate p ([] : List α) = [] := by
  simp [paginate]

lemma paginate_ne_nil (p : Nat) (hp : 0 < p) (l : List α) (hl : l ≠ []) :
    paginate p l ≠ [] := by
  rw [paginate_cons p hp l hl]
  exact List.cons_ne_nil _ _

/-- Concatenating the pages in order reproduces the ranked sequence. -/
lemma paginate_join (P : Nat) (hP : 0 < P) (l : List α) : (paginate P l).flatten = l := by
  suffices h : ∀ n (l : List α), l.length ≤ n → (paginate P l).flatten = l from
    h l.length l le_rfl
  intro n
  induction n with
  | zero =>
    intro l hl
    rw [List.length_eq_zero.mp (Nat.le_zero.mp hl), paginate_nil]
    rfl
  | succ n ih =>
    intro l hl
    by_cases he : l = []
    · rw [he, paginate_nil]
      rfl
    · have h1 : 0 < l.length := List.length_pos.mpr he
      have hdrop : (l.drop P).length ≤ n := by
        rw [List.length_drop]
        omega
      rw [paginate_cons P hP l he, List.flatten_cons, ih (l.drop P) hdrop,
        List.take_append_drop]

/-- The number of pages is the ceiling of N / P. -/
lemma paginate_length (P : Nat) (hP : 0 < P) (l : List α) :
    (paginate P l).length = (l.length + P - 1) / P := by
  suffices h : ∀ n (l : List α), l.length ≤ n →
      (paginate P l).length = (l.length + P - 1) / P from h l.length l le_rfl
  intro n
  induction n with
  | zero =>
    intro l hl
    rw [List.length_eq_zero.mp (Nat.le_zero.mp hl),
      paginate_nil P]
    rw [List.length_nil, List.length_nil, Nat.div_eq_of_lt (show 0 + P - 1 < P by omega)]
  | succ n ih =>
    intro l hl
    by_cases he : l = []
    · rw [he, paginate_nil P]
      rw [List.length_nil, List.length_nil, Nat.div_eq_of_lt (show 0 + P - 1 < P by omega)]
    · have h1 : 0 < l.length := List.length_pos.mpr he
      have hdrop : (l.drop P).length ≤ n := by
        rw [List.length_drop]
        omega
      rw [paginate_cons P hP l he, List.length_cons, ih (l.drop P) hdrop, List.length_drop]
      rcases le_or_lt l.length P with hle | hlt
      · have hL : (l.length - P + P - 1) / P = 0 := Nat.div_eq_of_lt (by omega)
        have hR : (l.length + P - 1) / P = 1 := Nat.div_eq_of_lt_le (by omega) (by omega)
        omega
      · have hstep : l.length - P + P - 1 = l.length - 1 := by omega
        have h2 : l.length + P - 1 = l.length - 1 + P := by omega
        rw [hstep, h2, Nat.add_div_right _ hP]

/-- Every page except possibly the last holds exactly P entries. -/
lemma paginate_dropLast (P : Nat) (hP : 0 < P) (l : List α) :
    ∀ pg ∈ (paginate P l).dropLast, pg.length = P := by
  suffices h : ∀ n (l : List α), l.length ≤ n →
      ∀ pg ∈ (paginate P l).dropLast, pg.length = P from h l.length l le_rfl
  intro n
  induction n with
  | zero =>
    intro l hl pg hpg
    rw [List.length_eq_zero.mp (Nat.le_zero.mp hl)] at hpg
    exact absurd hpg (by simp [paginate])
  | succ n ih =>
    intro l hl pg hpg
    by_cases he : l = []
    · rw [he] at hpg
      exact absurd hpg (by simp [paginate])
    · have h1 : 0 < l.length := List.length_pos.mpr he
      have hdrop : (l.drop P).length ≤ n := by
        rw [List.length_drop]
        omega
      rw [paginate_cons P hP l he] at hpg
      by_cases hd : l.drop P = []
      · rw [hd, paginate_nil P] at hpg
        simp at hpg
      · have hpnil := paginate_ne_nil P hP (l.drop P) hd
        cases hr : paginate P (l.drop P) with
        | nil => exact absurd hr hpnil
        | cons r rs =>
          rw [hr, List.dropLast_cons₂, List.mem_cons] at hpg
          rcases hpg with hpg | hpg
          · rw [hpg, List.length_take]
            have hc : ¬ l.length ≤ P := fun hc => hd (List.drop_eq_nil_of_le hc)
            omega
          · exact ih (l.drop P) hdrop pg (by rw [hr]; exact hpg)

/-- The last page holds N mod P entries, or P when P divides N. -/
lemma paginate_getLast (P : Nat) (hP : 0 < P) (l : List α) :
    ∀ pg, (paginate P l).getLast? = some pg →
      pg.length = if l.length % P = 0 then P else l.length % P := by
  suffices h : ∀ n (l : List α), l.length ≤ n → ∀ pg, (paginate P l).getLast? = some pg →
      pg.length = if l.length % P = 0 then P else l.length % P from h l.length l le_rfl
  intro n
  induction n with
  | zero =>
    intro l hl pg hpg
    have he := List.length_eq_zero.mp (Nat.le_zero.mp hl)
    subst he
    exact absurd hpg (by simp [paginate])
  | succ n ih =>
    intro l hl pg hpg
    by_cases he : l = []
    · subst he
      exact absurd hpg (by simp [paginate])
    · have h1 : 0 < l.length := List.length_pos.mpr he
      rw [paginate_cons P hP l he] at hpg
      by_cases hd : l.drop P = []
      · rw [hd, paginate_nil P] at hpg
        have hpe : pg = l.take P := by
          simp only [List.getLast?_singleton, Option.some.injEq] at hpg
          exact hpg.symm
        have hlen : l.length ≤ P := List.drop_eq_nil_iff.mp hd
        rw [hpe, List.length_take]
        rcases eq_or_lt_of_le hlen with heq | hlt
        · rw [heq, Nat.mod_self, if_pos rfl]
          omega
        · rw [Nat.mod_eq_of_lt hlt, if_neg (by omega)]
          omega
      · have hpnil := paginate_ne_nil P hP (l.drop P) hd
        have hdrop : (l.drop P).length ≤ n := by
          rw [List.length_drop]
          omega
        have hP_le : P ≤ l.length := by
          by_contra hc
          exact hd (List.drop_eq_nil_of_le (le_of_not_le hc))
        cases hr : paginate P (l.drop P) with
        | nil => exact absurd hr hpnil
        | cons r rs =>
          rw [hr, List.getLast?_cons_cons] at hpg
          have hlast := ih (l.drop P) hdrop pg (by rw [hr]; exact hpg)
          rw [List.length_drop,
            show (l.length - P) % P = l.length % P from (Nat.mod_eq_sub_mod hP_le).symm]
            at hlast
          exact hlast

/-- **C6.** For every ranked sequence and positive page size P, the page
loop produces exactly ceil(N/P) pages; every page except possibly the last
holds exactly P entries; the last holds N mod P entries (or P when P
divides N); and concatenating the pages in order reproduces the ranked
sequence with nothing dropped or duplicated. -/
theorem claim_c6_pagination (P : Nat) (l : List α) (hP : 0 < P) :
    (paginate P l).length = (l.length + P - 1) / P ∧
    (∀ pg ∈ (paginate P l).dropLast, pg.length = P) ∧
    (∀ pg, (paginate P l).getLast? = some pg →
      pg.length = if l.length % P = 0 then P else l.length % P) ∧
    (paginate P l).flatten = l :=
  ⟨paginate_length P hP l, paginate_dropLast P hP l, paginate_getLast P hP l,
    paginate_join P hP l⟩

theorem claim_c6_witness :
    0 < 2 ∧ (paginate 2 ([1, 2, 3, 4, 5] : List ℕ)).flatten = [1, 2, 3, 4, 5] ∧
    (paginate 2 ([1, 2, 3, 4, 5] : List ℕ)).length = 3 :=
  ⟨by decide, (claim_c6_pagination 2 [1, 2, 3, 4, 5] (by decide)).2.2.2,
    ((claim_c6_pagination 2 [1, 2, 3, 4, 5] (by decide)).1).trans (by decide)⟩

end RankingVendas
